import Mathlib

/-!
Verification of the `EmailPasswordDemo` React component
(src/app/email-password/EmailPasswordDemo.tsx).

The component is shallowly embedded: its `useState` fields become a record
`UIState`, each event handler becomes a pure function from the current state
(plus the externally supplied SDK outcome, which the handler awaits) to the
next state together with the list of SDK operations the handler issues, and
the rendered UI's event surface becomes a guarded step relation `stepFn` /
`enabled` whose guards are the JSX render conditions under which each
control is visible.  External inputs (auth-state-change events, SDK call
results, the browser URL) are parameters of the corresponding steps.
-/

namespace EmailPassword

/-- Source: `type ResetMode = "none" | "request" | "update"` (line 13). -/
inductive ResetMode where
  | none
  | request
  | update
deriving DecidableEq, Repr

/-- The fields of the Supabase `User` object that the component reads
(`id`, `email`, `last_sign_in_at`). -/
structure User where
  id : String
  email : Option String
  last_sign_in_at : Option String
deriving DecidableEq, Repr

/-- The part of the Supabase `Session` object the listener reads:
`session?.user`. -/
structure Session where
  user : User
deriving DecidableEq, Repr

/-- The SDK operations on `supabase.auth` that the component can issue. -/
inductive AuthOp where
  | signUp (email password : String)
  | signInWithPassword (email password : String)
  | resetPasswordForEmail (email : String)
  | updateUser (password : String)
  | signOut
  | onAuthStateChange
  | unsubscribe
deriving DecidableEq, Repr

/-- The browser URL as the component inspects it: the fragment parameters
(`window.location.hash`) and the query parameters (`window.location.search`),
each as the key/value pairs `URLSearchParams` exposes. -/
structure BrowserWindow where
  hashParams : List (String × String)
  searchParams : List (String × String)
deriving DecidableEq, Repr

/-- Models `URLSearchParams.get`: the value of the first pair with the given key,
or null. -/
def paramGet (ps : List (String × String)) (k : String) : Option String :=
  (ps.find? (fun p => p.fst == k)).map (fun p => p.snd)

/-- Source: `hasRecoveryParams` (lines 15-25).  `Option.none` models
`typeof window === "undefined"`. -/
def hasRecoveryParams (w : Option BrowserWindow) : Bool :=
  match w with
  | Option.none => false
  | Option.some w =>
    if paramGet w.hashParams "type" == some "recovery" then true
    else paramGet w.searchParams "password-reset" == some "true"

/-- The eight `useState` fields of `EmailPasswordDemo` (lines 28-40).
`mode` is a plain string in the source (`useState("signup")`). -/
structure UIState where
  mode : String
  email : String
  password : String
  status : String
  resetMode : ResetMode
  newPassword : String
  confirmPassword : String
  currentUser : Option User
deriving DecidableEq, Repr

/-- The status text installed when a recovery redirect is detected
(lines 32, 57, 72). -/
def recoveryStatus : String :=
  "Enter a new password to finish resetting your account."

/-- The initial values of the `useState` hooks (lines 28-40): `mode`
`"signup"`, empty text fields, `status` and `resetMode` computed from
`hasRecoveryParams()`, and `currentUser` from the `user` prop. -/
def initState (user : Option User) (w : Option BrowserWindow) : UIState :=
  { mode := "signup"
    email := ""
    password := ""
    status := if hasRecoveryParams w then recoveryStatus else ""
    resetMode := if hasRecoveryParams w then ResetMode.update else ResetMode.none
    newPassword := ""
    confirmPassword := ""
    currentUser := user }

/-- Source: `handleSignOut` (lines 42-49): issues `signOut`, discards its result
`res`, then sets `currentUser` to null, a fixed status, `resetMode` to
`"none"`, and clears the two new-password fields. -/
def handleSignOut (s : UIState) (res : Option String) : UIState × List AuthOp :=
  ({ s with
      currentUser := Option.none
      status := "Signed out successfully"
      resetMode := ResetMode.none
      newPassword := ""
      confirmPassword := "" },
   [AuthOp.signOut])

/-- The `onAuthStateChange` callback (lines 53-59):
`setCurrentUser(session?.user ?? null)`, and on a `"PASSWORD_RECOVERY"`
event additionally `setResetMode("update")` and the recovery status. -/
def onAuthChange (s : UIState) (event : String) (session : Option Session) :
    UIState :=
  let s1 := { s with currentUser := session.map Session.user }
  if event == "PASSWORD_RECOVERY" then
    { s1 with resetMode := ResetMode.update, status := recoveryStatus }
  else s1

/-- The mount effect on lines 67-83: when `hasRecoveryParams()` holds (and
`window` is defined) it sets `resetMode` to `"update"` and the recovery
status; the remainder of the effect only rewrites the address bar. -/
def recoveryMountEffect (s : UIState) (w : Option BrowserWindow) : UIState :=
  if hasRecoveryParams w && w.isSome then
    { s with resetMode := ResetMode.update, status := recoveryStatus }
  else s

/-- Source: `handleSubmit` (lines 85-112): branches on `mode == "signup"`, issues
`signUp` or `signInWithPassword` with the current email/password, and sets
the status from the outcome `err` (the SDK error message, or none). -/
def handleSubmit (s : UIState) (err : Option String) : UIState × List AuthOp :=
  if s.mode == "signup" then
    (match err with
     | Option.some m => { s with status := m }
     | Option.none =>
        { s with status := "Check your inbox to confirm the new account." },
     [AuthOp.signUp s.email s.password])
  else
    (match err with
     | Option.some m => { s with status := m }
     | Option.none => { s with status := "Signed in successfully" },
     [AuthOp.signInWithPassword s.email s.password])

/-- Source: `handlePasswordResetRequest` (lines 114-128): issues
`resetPasswordForEmail` with the current email; on error sets the status to
the message and returns, otherwise sets a fixed status, `resetMode`
`"none"`, and `mode` `"signin"`. -/
def handlePasswordResetRequest (s : UIState) (err : Option String) :
    UIState × List AuthOp :=
  (match err with
   | Option.some m => { s with status := m }
   | Option.none =>
      { s with
          status := "Password reset email sent. Check your inbox."
          resetMode := ResetMode.none
          mode := "signin" },
   [AuthOp.resetPasswordForEmail s.email])

/-- Source: `handlePasswordUpdate` (lines 130-151): local validation first (length,
then match), a violation sets only the status and returns with no SDK call;
otherwise issues `updateUser`, sets the status from the outcome, and on
success sets `resetMode` `"none"` and clears the two password fields. -/
def handlePasswordUpdate (s : UIState) (err : Option String) :
    UIState × List AuthOp :=
  if s.newPassword.length < 6 then
    ({ s with status := "New password must be at least 6 characters." }, [])
  else if s.newPassword ≠ s.confirmPassword then
    ({ s with status := "Passwords do not match." }, [])
  else
    (match err with
     | Option.some m => { s with status := m }
     | Option.none =>
        { s with
            status := "Password updated. You're now signed in."
            resetMode := ResetMode.none
            newPassword := ""
            confirmPassword := "" },
     [AuthOp.updateUser s.newPassword])

/-- Source: `startPasswordReset` (lines 153-158). -/
def startPasswordReset (s : UIState) : UIState :=
  { s with
      resetMode := ResetMode.request
      status := ""
      mode := "signin"
      password := "" }

/-- Source: `cancelPasswordReset` (lines 160-167). -/
def cancelPasswordReset (s : UIState) : UIState :=
  { s with
      resetMode := ResetMode.none
      mode := "signin"
      status := ""
      newPassword := ""
      confirmPassword := ""
      password := "" }

/-- The events the rendered component can receive: user interactions with
the controls, the auth-state-change callback, and the recovery mount
effect.  SDK outcomes (`err`, `res`) and external data (event name,
session, window) are carried by the step. -/
inductive Step where
  | toggleMode (option : String)
  | startReset
  | cancelReset
  | submit (err : Option String)
  | resetRequest (err : Option String)
  | passwordUpdate (err : Option String)
  | signOutClick (res : Option String)
  | authChange (event : String) (session : Option Session)
  | recoveryMount (w : Option BrowserWindow)
  | editEmail (v : String)
  | editPassword (v : String)
  | editNewPassword (v : String)
  | editConfirmPassword (v : String)
deriving DecidableEq, Repr

/-- Source: `(!currentUser || resetMode !== "none")` (line 208): whether the form
is rendered. -/
def formShown (s : UIState) : Bool :=
  s.currentUser.isNone || !(s.resetMode == ResetMode.none)

/-- The render conditions under which each control that fires a step is
visible (lines 208-398): the mode-toggle buttons exist only for the two
options `"signup"`/`"signin"` and only when `resetMode === "none"`
(lines 240-259); `Forgot password?` needs `resetMode === "none"` and
`mode === "signin"` (line 337); `Back to sign in` needs a reset mode
(lines 260-268); the form submit dispatches by `resetMode` (lines 169-175);
the sign-out button needs `currentUser` (lines 373-398); the auth listener
and the mount effect are always live; the text inputs fire freely. -/
def enabled (s : UIState) : Step → Bool
  | Step.toggleMode o =>
      formShown s && s.resetMode == ResetMode.none
        && (o == "signup" || o == "signin")
  | Step.startReset =>
      formShown s && s.resetMode == ResetMode.none && s.mode == "signin"
  | Step.cancelReset => formShown s && !(s.resetMode == ResetMode.none)
  | Step.submit _ => formShown s && s.resetMode == ResetMode.none
  | Step.resetRequest _ => formShown s && s.resetMode == ResetMode.request
  | Step.passwordUpdate _ => formShown s && s.resetMode == ResetMode.update
  | Step.signOutClick _ => !s.currentUser.isNone
  | Step.authChange _ _ => true
  | Step.recoveryMount _ => true
  | Step.editEmail _ => true
  | Step.editPassword _ => true
  | Step.editNewPassword _ => true
  | Step.editConfirmPassword _ => true

/-- The effect of each step: the next UI state and the SDK operations the
step issues.  The mode-toggle `onClick` is lines 247-250
(`setMode(option); setStatus("")`). -/
def stepFn (s : UIState) : Step → UIState × List AuthOp
  | Step.toggleMode o => ({ s with mode := o, status := "" }, [])
  | Step.startReset => (startPasswordReset s, [])
  | Step.cancelReset => (cancelPasswordReset s, [])
  | Step.submit err => handleSubmit s err
  | Step.resetRequest err => handlePasswordResetRequest s err
  | Step.passwordUpdate err => handlePasswordUpdate s err
  | Step.signOutClick res => handleSignOut s res
  | Step.authChange e sess => (onAuthChange s e sess, [])
  | Step.recoveryMount w => (recoveryMountEffect s w, [])
  | Step.editEmail v => ({ s with email := v }, [])
  | Step.editPassword v => ({ s with password := v }, [])
  | Step.editNewPassword v => ({ s with newPassword := v }, [])
  | Step.editConfirmPassword v => ({ s with confirmPassword := v }, [])

/-- The states the component can be in: an initial state for some `user`
prop and URL, or the result of an enabled step from a reachable state. -/
inductive Reachable : UIState → Prop where
  | init (u : Option User) (w : Option BrowserWindow) :
      Reachable (initState u w)
  | step {s : UIState} (h : Reachable s) (a : Step)
      (ha : enabled s a = true) : Reachable (stepFn s a).1

/-- Models `{ data: listener }` returned by `onAuthStateChange` (line 52); the
component only touches its `subscription`. -/
structure Subscription where
  dummy : Unit := ()
deriving DecidableEq, Repr

/-- The listener object whose `subscription.unsubscribe()` the effect
cleanup calls. -/
structure AuthListener where
  subscription : Subscription
deriving DecidableEq, Repr

/-- The setup phase of the subscription effect (lines 51-60): one
`onAuthStateChange` subscription. -/
def effectSetup : List AuthOp := [AuthOp.onAuthStateChange]

/-- The cleanup returned by the subscription effect (lines 62-64):
`listener?.subscription.unsubscribe()` — one unsubscribe when the listener
exists, nothing otherwise. -/
def effectCleanup (listener : Option AuthListener) : List AuthOp :=
  match listener with
  | Option.some _ => [AuthOp.unsubscribe]
  | Option.none => []

/-! ### Helper lemmas about the handlers -/

/-- On either branch, `handleSubmit` changes only the status field. -/
theorem handleSubmit_only_status (s : UIState) (err : Option String) :
    (handleSubmit s err).1 = { s with status := (handleSubmit s err).1.status } := by
  unfold handleSubmit
  split <;> cases err <;> rfl

/-- The operations `handleSubmit` issues: exactly one call, chosen by the
mode. -/
theorem handleSubmit_ops (s : UIState) (err : Option String) :
    (handleSubmit s err).2 =
      if s.mode == "signup" then [AuthOp.signUp s.email s.password]
      else [AuthOp.signInWithPassword s.email s.password] := by
  unfold handleSubmit
  split <;> cases err <;> simp_all

/-- On an error, `handlePasswordResetRequest` changes only the status. -/
theorem handlePasswordResetRequest_err (s : UIState) (m : String) :
    (handlePasswordResetRequest s (Option.some m)).1 = { s with status := m } := rfl

/-- On success, `handlePasswordResetRequest` sets status, reset mode and
mode, nothing else. -/
theorem handlePasswordResetRequest_ok (s : UIState) :
    (handlePasswordResetRequest s Option.none).1 =
      { s with
          status := "Password reset email sent. Check your inbox."
          resetMode := ResetMode.none
          mode := "signin" } := rfl

/-- When validation passes, `handlePasswordUpdate` reduces to the SDK-call
branch. -/
theorem handlePasswordUpdate_valid (s : UIState) (err : Option String)
    (hlen : 6 ≤ s.newPassword.length) (heq : s.newPassword = s.confirmPassword) :
    handlePasswordUpdate s err =
      (match err with
       | Option.some m => { s with status := m }
       | Option.none =>
          { s with
              status := "Password updated. You're now signed in."
              resetMode := ResetMode.none
              newPassword := ""
              confirmPassword := "" },
       [AuthOp.updateUser s.newPassword]) := by
  unfold handlePasswordUpdate
  rw [if_neg (by omega), if_neg (fun hn => hn heq)]

/-! ### C10 -/

/-- C10: `handleSignOut` ignores the outcome of the `signOut` call: for
every result, including an error, it sets `currentUser` to null, the status
to "Signed out successfully", the reset mode to `"none"`, clears the new-
and confirm-password fields, and leaves the other fields alone. -/
theorem handleSignOut_ignores_result (s : UIState) (res : Option String) :
    handleSignOut s res =
      ({ s with
          currentUser := Option.none
          status := "Signed out successfully"
          resetMode := ResetMode.none
          newPassword := ""
          confirmPassword := "" },
       [AuthOp.signOut]) ∧
    handleSignOut s res = handleSignOut s Option.none :=
  ⟨rfl, rfl⟩

/-! ### C9 -/

/-- C9: `handlePasswordUpdate` issues `updateUser` only when the new
password is at least 6 characters long and equals the confirmation; on a
violation it makes no SDK call, sets only the status to the corresponding
validation message, and leaves every other field unchanged. -/
theorem handlePasswordUpdate_validation (s : UIState) (err : Option String) :
    (s.newPassword.length < 6 →
      handlePasswordUpdate s err =
        ({ s with status := "New password must be at least 6 characters." }, [])) ∧
    (6 ≤ s.newPassword.length → s.newPassword ≠ s.confirmPassword →
      handlePasswordUpdate s err =
        ({ s with status := "Passwords do not match." }, [])) ∧
    ((handlePasswordUpdate s err).2 ≠ [] →
      6 ≤ s.newPassword.length ∧ s.newPassword = s.confirmPassword ∧
      (handlePasswordUpdate s err).2 = [AuthOp.updateUser s.newPassword]) := by
  refine ⟨?_, ?_, ?_⟩
  · intro h
    unfold handlePasswordUpdate
    rw [if_pos h]
  · intro hlen hne
    unfold handlePasswordUpdate
    rw [if_neg (by omega), if_pos hne]
  · intro hcall
    by_cases hlen : s.newPassword.length < 6
    · exfalso
      apply hcall
      unfold handlePasswordUpdate
      rw [if_pos hlen]
    · by_cases heq : s.newPassword = s.confirmPassword
      · refine ⟨by omega, heq, ?_⟩
        rw [handlePasswordUpdate_valid s err (by omega) heq]
      · exfalso
        apply hcall
        unfold handlePasswordUpdate
        rw [if_neg hlen, if_pos heq]

/-- Witness for C9 at the initial state, whose empty new password fails the
length check. -/
theorem handlePasswordUpdate_validation_witness :
    handlePasswordUpdate (initState Option.none Option.none) Option.none =
      ({ initState Option.none Option.none with
          status := "New password must be at least 6 characters." }, []) :=
  (handlePasswordUpdate_validation (initState Option.none Option.none)
    Option.none).1 (by decide)

/-! ### C2 -/

/-- C2: every error returned by `signUp`, `signInWithPassword`,
`resetPasswordForEmail` or `updateUser` is surfaced verbatim: the handler
sets the status to exactly the error message and issues exactly one SDK
call (no retry).  For `updateUser` the call is only reached once local
validation passes. -/
theorem sdk_errors_verbatim (s : UIState) (m : String) :
    ((handleSubmit s (Option.some m)).1.status = m ∧
      (handleSubmit s (Option.some m)).2.length = 1) ∧
    ((handlePasswordResetRequest s (Option.some m)).1.status = m ∧
      (handlePasswordResetRequest s (Option.some m)).2.length = 1) ∧
    (6 ≤ s.newPassword.length → s.newPassword = s.confirmPassword →
      (handlePasswordUpdate s (Option.some m)).1.status = m ∧
      (handlePasswordUpdate s (Option.some m)).2.length = 1) := by
  refine ⟨⟨?_, ?_⟩, ⟨rfl, rfl⟩, ?_⟩
  · unfold handleSubmit
    split <;> rfl
  · unfold handleSubmit
    split <;> rfl
  · intro hlen heq
    rw [handlePasswordUpdate_valid s (Option.some m) hlen heq]
    exact ⟨rfl, rfl⟩

/-- Witness for C2: a concrete state with a valid new password, on which an
`updateUser` error message lands verbatim in the status. -/
theorem sdk_errors_verbatim_witness :
    (handlePasswordUpdate
        { mode := "signin", email := "", password := "", status := "",
          resetMode := ResetMode.update, newPassword := "secret",
          confirmPassword := "secret", currentUser := Option.none }
        (Option.some "Invalid token")).1.status = "Invalid token" :=
  ((sdk_errors_verbatim
      { mode := "signin", email := "", password := "", status := "",
        resetMode := ResetMode.update, newPassword := "secret",
        confirmPassword := "secret", currentUser := Option.none }
      "Invalid token").2.2 (by decide) rfl).1

/-! ### C5 -/

/-- C5: at initialisation the reset mode is `"update"` with the recovery
status exactly when the URL carries recovery parameters (hash `type` equal
to `"recovery"`, or query `password-reset` equal to `"true"`); otherwise
the reset mode is `"none"` and the status is empty. -/
theorem initState_recovery_detection (u : Option User) (w : Option BrowserWindow) :
    ((initState u w).resetMode = ResetMode.update ∧
      (initState u w).status = recoveryStatus ↔ hasRecoveryParams w = true) ∧
    (hasRecoveryParams w = false →
      (initState u w).resetMode = ResetMode.none ∧ (initState u w).status = "") := by
  unfold initState
  by_cases h : hasRecoveryParams w = true
  · simp [h, recoveryStatus]
  · simp only [Bool.not_eq_true] at h
    simp [h]

/-- Witness for C5: a window whose hash carries `type=recovery` yields the
update mode and recovery status, and one with no recovery parameters yields
`"none"` and an empty status. -/
theorem initState_recovery_detection_witness :
    ((initState Option.none
        (Option.some ⟨[("type", "recovery")], []⟩)).resetMode = ResetMode.update ∧
      (initState Option.none
        (Option.some ⟨[("type", "recovery")], []⟩)).status = recoveryStatus) ∧
    ((initState Option.none Option.none).resetMode = ResetMode.none ∧
      (initState Option.none Option.none).status = "") :=
  ⟨(initState_recovery_detection Option.none
      (Option.some ⟨[("type", "recovery")], []⟩)).1.mpr (by decide),
   (initState_recovery_detection Option.none Option.none).2 (by decide)⟩

/-! ### C6 -/

/-- C6: on every auth-state-change event the current user becomes exactly
the user of the event session (null when the session is absent); every
other step leaves the current user unchanged except sign-out, which sets it
to null. -/
theorem currentUser_mirrors_service (s : UIState) (a : Step) :
    (stepFn s a).1.currentUser =
      match a with
      | Step.authChange _ sess => sess.map Session.user
      | Step.signOutClick _ => Option.none
      | _ => s.currentUser := by
  cases a
  case toggleMode o => rfl
  case startReset => rfl
  case cancelReset => rfl
  case submit err =>
    show (handleSubmit s err).1.currentUser = s.currentUser
    rw [handleSubmit_only_status]
  case resetRequest err => cases err <;> rfl
  case passwordUpdate err =>
    show (handlePasswordUpdate s err).1.currentUser = s.currentUser
    unfold handlePasswordUpdate
    split
    · rfl
    · split
      · rfl
      · cases err <;> rfl
  case signOutClick res => rfl
  case authChange e sess =>
    show (onAuthChange s e sess).currentUser = sess.map Session.user
    unfold onAuthChange
    by_cases hc : (e == "PASSWORD_RECOVERY") = true <;> simp [hc]
  case recoveryMount w =>
    show (recoveryMountEffect s w).currentUser = s.currentUser
    unfold recoveryMountEffect
    split <;> rfl
  case editEmail v => rfl
  case editPassword v => rfl
  case editNewPassword v => rfl
  case editConfirmPassword v => rfl

/-! ### C8 -/

/-- C8: the effect cleanup unsubscribes the listener exactly once (and does
nothing when the listener is absent, matching the optional chaining), the
effect setup subscribes exactly once, and no step of the component ever
issues an unsubscribe — there is no other cancellation. -/
theorem listener_unsubscribe_once (l : AuthListener) (s : UIState) (a : Step) :
    (effectCleanup (Option.some l)).count AuthOp.unsubscribe = 1 ∧
    effectSetup.count AuthOp.onAuthStateChange = 1 ∧
    effectCleanup Option.none = [] ∧
    ((stepFn s a).2.all (fun op => !(op == AuthOp.unsubscribe))) = true := by
  refine ⟨rfl, rfl, rfl, ?_⟩
  cases a
  case submit err =>
    show ((handleSubmit s err).2.all _) = true
    rw [handleSubmit_ops]
    split <;> rfl
  case resetRequest err => cases err <;> rfl
  case passwordUpdate err =>
    show ((handlePasswordUpdate s err).2.all _) = true
    unfold handlePasswordUpdate
    split
    · rfl
    · split
      · rfl
      · cases err <;> rfl
  all_goals rfl

/-! ### Reachability helpers -/

/-- How each step can affect the `mode` field: it is preserved, forced to
`"signin"`, or set to the toggle's option. -/
theorem stepFn_mode (s : UIState) (a : Step) :
    (stepFn s a).1.mode = s.mode ∨ (stepFn s a).1.mode = "signin" ∨
      (∃ o, a = Step.toggleMode o ∧ (stepFn s a).1.mode = o) := by
  cases a
  case toggleMode o => exact Or.inr (Or.inr ⟨o, rfl, rfl⟩)
  case startReset => exact Or.inr (Or.inl rfl)
  case cancelReset => exact Or.inr (Or.inl rfl)
  case submit err =>
    left
    show (handleSubmit s err).1.mode = s.mode
    rw [handleSubmit_only_status]
  case resetRequest err =>
    cases err
    case some m => exact Or.inl rfl
    case none => exact Or.inr (Or.inl rfl)
  case passwordUpdate err =>
    left
    show (handlePasswordUpdate s err).1.mode = s.mode
    unfold handlePasswordUpdate
    split
    · rfl
    · split
      · rfl
      · cases err <;> rfl
  case signOutClick res => exact Or.inl rfl
  case authChange e sess =>
    left
    show (onAuthChange s e sess).mode = s.mode
    unfold onAuthChange
    split <;> rfl
  case recoveryMount w =>
    left
    show (recoveryMountEffect s w).mode = s.mode
    unfold recoveryMountEffect
    split <;> rfl
  all_goals exact Or.inl rfl

/-- In every reachable state the mode string is one of the two options the
toggle offers. -/
theorem reachable_mode (s : UIState) (h : Reachable s) :
    s.mode = "signup" ∨ s.mode = "signin" := by
  induction h with
  | init u w => exact Or.inl rfl
  | @step s' h a ha ih =>
    rcases stepFn_mode s' a with hm | hm | ⟨o, hao, hm⟩
    · rw [hm]; exact ih
    · exact Or.inr hm
    · subst hao
      simp only [enabled, Bool.and_eq_true, Bool.or_eq_true, beq_iff_eq] at ha
      rw [hm]
      exact ha.2

/-! ### C7 -/

/-- C7: in every reachable state the form mode is exactly one of
`"signup"`/`"signin"` and the reset mode is exactly one of
`"none"`/`"request"`/`"update"`, so at most one reset mode is active; every
step preserves both memberships because they hold in all reachable states. -/
theorem mode_and_resetMode_enumerations (s : UIState) (h : Reachable s) :
    (s.mode = "signup" ∨ s.mode = "signin") ∧
    (s.resetMode = ResetMode.none ∨ s.resetMode = ResetMode.request ∨
      s.resetMode = ResetMode.update) :=
  ⟨reachable_mode s h, by cases hr : s.resetMode <;> simp⟩

/-- Witness for C7 at the initial state with no user and no window. -/
theorem mode_and_resetMode_enumerations_witness :
    ((initState Option.none Option.none).mode = "signup" ∨
      (initState Option.none Option.none).mode = "signin") ∧
    ((initState Option.none Option.none).resetMode = ResetMode.none ∨
      (initState Option.none Option.none).resetMode = ResetMode.request ∨
      (initState Option.none Option.none).resetMode = ResetMode.update) :=
  mode_and_resetMode_enumerations (initState Option.none Option.none)
    (Reachable.init Option.none Option.none)

/-! ### C1 -/

/-- Whether a step is one of the recovery triggers: a `"PASSWORD_RECOVERY"`
auth event, or the mount effect with recovery parameters present. -/
def recoveryTriggered : Step → Bool
  | Step.authChange e _ => e == "PASSWORD_RECOVERY"
  | Step.recoveryMount w => hasRecoveryParams w && w.isSome
  | _ => false

/-- Amended C1: every enabled step preserves the reset mode, returns it to
`"none"`, moves it from `"none"` to `"request"` (the only way `"request"`
is entered), or sets it to `"update"` via a recovery trigger — which fires
from any state, so `"request"` can move directly to `"update"`; no step
ever sets `"request"` from `"update"`. -/
theorem resetMode_transitions (s : UIState) (a : Step) (ha : enabled s a = true) :
    (stepFn s a).1.resetMode = s.resetMode ∨
    (stepFn s a).1.resetMode = ResetMode.none ∨
    (s.resetMode = ResetMode.none ∧ (stepFn s a).1.resetMode = ResetMode.request) ∨
    ((stepFn s a).1.resetMode = ResetMode.update ∧ recoveryTriggered a = true) := by
  cases a
  case toggleMode o => exact Or.inl rfl
  case startReset =>
    refine Or.inr (Or.inr (Or.inl ⟨?_, rfl⟩))
    simp only [enabled, Bool.and_eq_true, beq_iff_eq] at ha
    exact ha.1.2
  case cancelReset => exact Or.inr (Or.inl rfl)
  case submit err =>
    left
    show (handleSubmit s err).1.resetMode = s.resetMode
    rw [handleSubmit_only_status]
  case resetRequest err =>
    cases err
    case some m => exact Or.inl rfl
    case none => exact Or.inr (Or.inl rfl)
  case passwordUpdate err =>
    show (handlePasswordUpdate s err).1.resetMode = s.resetMode ∨
      (handlePasswordUpdate s err).1.resetMode = ResetMode.none ∨ _ ∨ _
    unfold handlePasswordUpdate
    split
    · exact Or.inl rfl
    · split
      · exact Or.inl rfl
      · cases err
        case some m => exact Or.inl rfl
        case none => exact Or.inr (Or.inl rfl)
  case signOutClick res => exact Or.inr (Or.inl rfl)
  case authChange e sess =>
    show (onAuthChange s e sess).resetMode = s.resetMode ∨ _ ∨ _ ∨
      ((onAuthChange s e sess).resetMode = ResetMode.update ∧
        recoveryTriggered (Step.authChange e sess) = true)
    unfold onAuthChange recoveryTriggered
    by_cases hc : (e == "PASSWORD_RECOVERY") = true
    · refine Or.inr (Or.inr (Or.inr ?_))
      simp [hc]
    · left
      simp [hc]
  case recoveryMount w =>
    show (recoveryMountEffect s w).resetMode = s.resetMode ∨ _ ∨ _ ∨
      ((recoveryMountEffect s w).resetMode = ResetMode.update ∧
        recoveryTriggered (Step.recoveryMount w) = true)
    unfold recoveryMountEffect recoveryTriggered
    by_cases hc : (hasRecoveryParams w && w.isSome) = true
    · refine Or.inr (Or.inr (Or.inr ?_))
      simp [hc]
    · left
      simp [hc]
  all_goals exact Or.inl rfl

/-- Witness for the amended C1: the mode toggle, enabled at the initial
state, leaves the reset mode where it was. -/
theorem resetMode_transitions_witness :
    (stepFn (initState Option.none Option.none)
        (Step.toggleMode "signin")).1.resetMode =
      (initState Option.none Option.none).resetMode ∨
    (stepFn (initState Option.none Option.none)
        (Step.toggleMode "signin")).1.resetMode = ResetMode.none ∨
    ((initState Option.none Option.none).resetMode = ResetMode.none ∧
      (stepFn (initState Option.none Option.none)
        (Step.toggleMode "signin")).1.resetMode = ResetMode.request) ∨
    ((stepFn (initState Option.none Option.none)
        (Step.toggleMode "signin")).1.resetMode = ResetMode.update ∧
      recoveryTriggered (Step.toggleMode "signin") = true) :=
  resetMode_transitions (initState Option.none Option.none)
    (Step.toggleMode "signin") (by decide)

/-- The reachable state in which the user has clicked `Forgot password?`:
sign-in mode with an open reset request. -/
def requestState : UIState :=
  { mode := "signin", email := "", password := "", status := "",
    resetMode := ResetMode.request, newPassword := "", confirmPassword := "",
    currentUser := Option.none }

/-- Counterexample to C1 as stated: from the reachable state with reset
mode `"request"`, a `"PASSWORD_RECOVERY"` auth event (always enabled) moves
the reset mode directly to `"update"`, a transition outside the two claimed
cycles. -/
theorem resetMode_request_to_update_cex :
    Reachable requestState ∧
    requestState.resetMode = ResetMode.request ∧
    enabled requestState (Step.authChange "PASSWORD_RECOVERY" Option.none) = true ∧
    (stepFn requestState
        (Step.authChange "PASSWORD_RECOVERY" Option.none)).1.resetMode =
      ResetMode.update := by
  refine ⟨?_, rfl, rfl, by decide⟩
  have h0 : Reachable (initState Option.none Option.none) :=
    Reachable.init Option.none Option.none
  have h1 := Reachable.step h0 (Step.toggleMode "signin") (by decide)
  have h2 := Reachable.step h1 Step.startReset (by decide)
  have he : (stepFn (stepFn (initState Option.none Option.none)
      (Step.toggleMode "signin")).1 Step.startReset).1 = requestState := by decide
  rw [he] at h2
  exact h2

/-! ### C3 -/

/-- A reachable state in which both credential fields hold text. -/
def typedState : UIState :=
  { mode := "signup", email := "a@b.c", password := "pw123456", status := "",
    resetMode := ResetMode.none, newPassword := "", confirmPassword := "",
    currentUser := Option.none }

/-- Counterexample to C3 as stated: on the sign-up/sign-in toggle — one of
the transitions the claim covers — neither the email nor the password field
is cleared. -/
theorem toggle_does_not_clear_fields_cex :
    Reachable typedState ∧
    enabled typedState (Step.toggleMode "signin") = true ∧
    (stepFn typedState (Step.toggleMode "signin")).1.email = "a@b.c" ∧
    (stepFn typedState (Step.toggleMode "signin")).1.password = "pw123456" := by
  refine ⟨?_, rfl, rfl, rfl⟩
  have h0 : Reachable (initState Option.none Option.none) :=
    Reachable.init Option.none Option.none
  have h1 := Reachable.step h0 (Step.editEmail "a@b.c") (by decide)
  have h2 := Reachable.step h1 (Step.editPassword "pw123456") (by decide)
  have he : (stepFn (stepFn (initState Option.none Option.none)
      (Step.editEmail "a@b.c")).1 (Step.editPassword "pw123456")).1 = typedState := by
    decide
  rw [he] at h2
  exact h2

/-- Amended C3: the transitions clear exactly these fields — the mode
toggle and a completed reset request clear none of the four; entering a
reset clears the password; cancelling a reset clears the password and both
new-password fields; a successful password update and sign-out clear both
new-password fields; the email field is cleared by no transition. -/
theorem fields_cleared_per_transition (s : UIState) (o : String) :
    ((stepFn s (Step.toggleMode o)).1.email = s.email ∧
      (stepFn s (Step.toggleMode o)).1.password = s.password ∧
      (stepFn s (Step.toggleMode o)).1.newPassword = s.newPassword ∧
      (stepFn s (Step.toggleMode o)).1.confirmPassword = s.confirmPassword) ∧
    ((startPasswordReset s).password = "" ∧
      (startPasswordReset s).email = s.email ∧
      (startPasswordReset s).newPassword = s.newPassword ∧
      (startPasswordReset s).confirmPassword = s.confirmPassword) ∧
    ((cancelPasswordReset s).password = "" ∧
      (cancelPasswordReset s).newPassword = "" ∧
      (cancelPasswordReset s).confirmPassword = "" ∧
      (cancelPasswordReset s).email = s.email) ∧
    (∀ err : Option String,
      (handlePasswordResetRequest s err).1.email = s.email ∧
      (handlePasswordResetRequest s err).1.password = s.password ∧
      (handlePasswordResetRequest s err).1.newPassword = s.newPassword ∧
      (handlePasswordResetRequest s err).1.confirmPassword = s.confirmPassword) ∧
    (6 ≤ s.newPassword.length → s.newPassword = s.confirmPassword →
      (handlePasswordUpdate s Option.none).1.newPassword = "" ∧
      (handlePasswordUpdate s Option.none).1.confirmPassword = "" ∧
      (handlePasswordUpdate s Option.none).1.email = s.email ∧
      (handlePasswordUpdate s Option.none).1.password = s.password) ∧
    (∀ res : Option String,
      (handleSignOut s res).1.newPassword = "" ∧
      (handleSignOut s res).1.confirmPassword = "" ∧
      (handleSignOut s res).1.email = s.email ∧
      (handleSignOut s res).1.password = s.password) := by
  refine ⟨⟨rfl, rfl, rfl, rfl⟩, ⟨rfl, rfl, rfl, rfl⟩, ⟨rfl, rfl, rfl, rfl⟩,
    ?_, ?_, ?_⟩
  · intro err
    cases err <;> exact ⟨rfl, rfl, rfl, rfl⟩
  · intro hlen heq
    rw [handlePasswordUpdate_valid s Option.none hlen heq]
    exact ⟨rfl, rfl, rfl, rfl⟩
  · intro res
    exact ⟨rfl, rfl, rfl, rfl⟩

/-- Witness for the amended C3: on a concrete state with a valid new
password, a successful update clears the new-password field. -/
theorem fields_cleared_per_transition_witness :
    (handlePasswordUpdate
        { mode := "signin", email := "", password := "", status := "",
          resetMode := ResetMode.update, newPassword := "secret",
          confirmPassword := "secret", currentUser := Option.none }
        Option.none).1.newPassword = "" :=
  ((fields_cleared_per_transition
      { mode := "signin", email := "", password := "", status := "",
        resetMode := ResetMode.update, newPassword := "secret",
        confirmPassword := "secret", currentUser := Option.none }
      "signin").2.2.2.2.1 (by decide) rfl).1

/-! ### C4 -/

/-- The SDK surface the spec sentence lists: the four named operations plus
the auth-state-change subscription (with its unsubscribe); written from the
spec's words for comparison with what `stepFn` actually issues. -/
def specListedOp : AuthOp → Bool
  | AuthOp.signUp _ _ => true
  | AuthOp.signInWithPassword _ _ => true
  | AuthOp.resetPasswordForEmail _ => true
  | AuthOp.updateUser _ => true
  | AuthOp.onAuthStateChange => true
  | AuthOp.unsubscribe => true
  | AuthOp.signOut => false

/-- A concrete signed-in user. -/
def sampleUser : User :=
  { id := "user-1", email := Option.some "a@b.c", last_sign_in_at := Option.none }

/-- The initial state for a signed-in user: the sign-out button is live. -/
def signedInState : UIState := initState (Option.some sampleUser) Option.none

/-- Counterexample to C4 as stated: from a reachable signed-in state the
enabled sign-out click issues `signOut`, an SDK operation outside the four
listed calls and the subscription. -/
theorem signOut_call_cex :
    Reachable signedInState ∧
    enabled signedInState (Step.signOutClick Option.none) = true ∧
    (stepFn signedInState (Step.signOutClick Option.none)).2 = [AuthOp.signOut] ∧
    specListedOp AuthOp.signOut = false :=
  ⟨Reachable.init (Option.some sampleUser) Option.none, rfl, rfl, rfl⟩

/-- Amended C4: the component invokes exactly five SDK operations — the
four listed plus `signOut` — and the one subscription: every step issues at
most one call, always among those five, and each of the five is actually
issued by the corresponding step. -/
theorem sdk_operations_exactly_five (s : UIState) (a : Step) :
    ((stepFn s a).2 = [] ∨
      (stepFn s a).2 = [AuthOp.signUp s.email s.password] ∨
      (stepFn s a).2 = [AuthOp.signInWithPassword s.email s.password] ∨
      (stepFn s a).2 = [AuthOp.resetPasswordForEmail s.email] ∨
      (stepFn s a).2 = [AuthOp.updateUser s.newPassword] ∨
      (stepFn s a).2 = [AuthOp.signOut]) ∧
    effectSetup = [AuthOp.onAuthStateChange] ∧
    (stepFn s (Step.signOutClick Option.none)).2 = [AuthOp.signOut] ∧
    (s.mode = "signup" →
      (stepFn s (Step.submit Option.none)).2 = [AuthOp.signUp s.email s.password]) ∧
    (s.mode ≠ "signup" →
      (stepFn s (Step.submit Option.none)).2 =
        [AuthOp.signInWithPassword s.email s.password]) ∧
    (stepFn s (Step.resetRequest Option.none)).2 =
      [AuthOp.resetPasswordForEmail s.email] ∧
    (6 ≤ s.newPassword.length → s.newPassword = s.confirmPassword →
      (stepFn s (Step.passwordUpdate Option.none)).2 =
        [AuthOp.updateUser s.newPassword]) := by
  refine ⟨?_, rfl, rfl, ?_, ?_, rfl, ?_⟩
  · cases a
    case submit err =>
      show (handleSubmit s err).2 = [] ∨
        (handleSubmit s err).2 = [AuthOp.signUp s.email s.password] ∨
        (handleSubmit s err).2 = [AuthOp.signInWithPassword s.email s.password] ∨
        (handleSubmit s err).2 = [AuthOp.resetPasswordForEmail s.email] ∨
        (handleSubmit s err).2 = [AuthOp.updateUser s.newPassword] ∨
        (handleSubmit s err).2 = [AuthOp.signOut]
      rw [handleSubmit_ops]
      by_cases hm : (s.mode == "signup") = true
      · rw [if_pos hm]
        exact Or.inr (Or.inl rfl)
      · rw [if_neg hm]
        exact Or.inr (Or.inr (Or.inl rfl))
    case resetRequest err =>
      cases err <;> exact Or.inr (Or.inr (Or.inr (Or.inl rfl)))
    case passwordUpdate err =>
      show (handlePasswordUpdate s err).2 = [] ∨
        (handlePasswordUpdate s err).2 = [AuthOp.signUp s.email s.password] ∨
        (handlePasswordUpdate s err).2 =
          [AuthOp.signInWithPassword s.email s.password] ∨
        (handlePasswordUpdate s err).2 = [AuthOp.resetPasswordForEmail s.email] ∨
        (handlePasswordUpdate s err).2 = [AuthOp.updateUser s.newPassword] ∨
        (handlePasswordUpdate s err).2 = [AuthOp.signOut]
      unfold handlePasswordUpdate
      split
      · exact Or.inl rfl
      · split
        · exact Or.inl rfl
        · cases err <;>
            exact Or.inr (Or.inr (Or.inr (Or.inr (Or.inl rfl))))
    case signOutClick res =>
      exact Or.inr (Or.inr (Or.inr (Or.inr (Or.inr rfl))))
    all_goals exact Or.inl rfl
  · intro hm
    show (handleSubmit s Option.none).2 = _
    rw [handleSubmit_ops, if_pos (beq_iff_eq.mpr hm)]
  · intro hm
    show (handleSubmit s Option.none).2 = _
    rw [handleSubmit_ops, if_neg (fun hb => hm (beq_iff_eq.mp hb))]
  · intro hlen heq
    show (handlePasswordUpdate s Option.none).2 = _
    rw [handlePasswordUpdate_valid s Option.none hlen heq]

/-- Witness for the amended C4 at a concrete state: the sign-up submission
issues exactly the `signUp` call. -/
theorem sdk_operations_exactly_five_witness :
    (stepFn typedState (Step.submit Option.none)).2 =
      [AuthOp.signUp "a@b.c" "pw123456"] :=
  (sdk_operations_exactly_five typedState
    (Step.submit Option.none)).2.2.2.1 rfl

end EmailPassword
